import Mathlib

set_option maxRecDepth 8000

/-
Verification of the claude-code-tts daemon and hook client.

The Python sources (tts_daemon.py, speak_hook.py) are shallowly embedded:
Python `str` values become Lean `String` (a list of code points, matching
Python's code-point semantics for `len`, slicing and iteration); Python
dicts that are only read through `.get`/`in` become association lists;
the daemon's mutable attributes become an explicit `DaemonState` record;
network and audio side effects become explicit event traces, with the
remote service's behaviour supplied as an oracle parameter.
-/

namespace TTS

-- Python `s[:n]` (slicing counts code points).
def pyTake (n : Nat) (s : String) : String :=
  ⟨s.data.take n⟩

-- Python `s.strip()`: drop whitespace from both ends.
def pyStrip (s : String) : String :=
  ⟨((s.data.dropWhile Char.isWhitespace).reverse.dropWhile Char.isWhitespace).reverse⟩

-- Python dict read through `d.get(k)`: association-list lookup.
def dictGet (m : List (String × String)) (k : String) : Option String :=
  (m.find? (fun p => p.1 == k)).map (fun p => p.2)

-- Python `k in d` membership test.
def dictHas (m : List (String × String)) (k : String) : Bool :=
  (dictGet m k).isSome

-- MODES preset table from tts_daemon.py.
def MODES : List (String × String) :=
  [("summary", "Summarize briefly in 1-2 sentences, keep only the main point"),
   ("full", "Read the text as provided, naturally")]

-- STYLES preset table from tts_daemon.py.
def STYLES : List (String × String) :=
  [("asmr", "Speak softly, gently, with calm pauses, like ASMR"),
   ("neutral", "Speak naturally and clearly"),
   ("energetic", "Speak with energy and enthusiasm")]

-- LANGUAGES preset table from tts_daemon.py.
def LANGUAGES : List (String × String) :=
  [("russian", "Speak in Russian"),
   ("english", "Speak in English"),
   ("german", "Speak in German"),
   ("spanish", "Speak in Spanish"),
   ("french", "Speak in French"),
   ("chinese", "Speak in Chinese"),
   ("japanese", "Speak in Japanese")]

/-- The effective configuration: `load_config` merges the user file over
`DEFAULT_CONFIG`, so every recognized key is always present. -/
structure Config where
  mode : String
  voice : String
  style : String
  language : String
  max_chars : Nat
  custom_styles : List (String × String)
deriving Repr, DecidableEq

-- DEFAULT_CONFIG from tts_daemon.py.
def default_config : Config :=
  { mode := "summary", voice := "Aoede", style := "asmr", language := "russian",
    max_chars := 1000, custom_styles := [] }

-- Python `". ".join(parts)`.
def joinDot : List String → String
  | [] => ""
  | [s] => s
  | s :: t => s ++ ". " ++ joinDot t

/-- build_instruction from tts_daemon.py: append the mode preset, then the
style preset (falling back to the custom_styles body, else nothing), then
the language preset, and join with ". " adding a final ".". -/
def build_instruction (c : Config) : String :=
  let parts0 : List String := []
  let parts1 :=
    match dictGet MODES c.mode with
    | some m => parts0 ++ [m]
    | none => parts0
  let parts2 :=
    match dictGet STYLES c.style with
    | some s => parts1 ++ [s]
    | none =>
      match dictGet c.custom_styles c.style with
      | some s => parts1 ++ [s]
      | none => parts1
  let parts3 :=
    match dictGet LANGUAGES c.language with
    | some l => parts2 ++ [l]
    | none => parts2
  joinDot parts3 ++ "."

-- The mode fragment of the instruction (spec section 3 terminology).
def modeFragment (c : Config) : Option String :=
  dictGet MODES c.mode

-- The resolved style fragment: a built-in key resolving to its preset,
-- otherwise a custom_styles key resolving to its body, else nothing.
def styleFragment (c : Config) : Option String :=
  match dictGet STYLES c.style with
  | some s => some s
  | none => dictGet c.custom_styles c.style

-- The language fragment of the instruction.
def langFragment (c : Config) : Option String :=
  dictGet LANGUAGES c.language

/-- Modelled from the spec: the instruction string is the mode fragment,
the resolved style fragment, and the language fragment, in that order,
joined by ". " and terminated with ".". Unknown style names contribute
nothing. Stated independently of `build_instruction` to compare the two. -/
def instructionOfSpec (c : Config) : String :=
  joinDot ((modeFragment c).toList ++ (styleFragment c).toList ++ (langFragment c).toList) ++ "."

/-- config_changed from tts_daemon.py: true when there is no recorded
config, when one of voice, style, mode, language differs, or when the
(shared) style is not a built-in preset and its custom_styles body differs. -/
def config_changed (current_config : Option Config) (new_config : Config) : Bool :=
  match current_config with
  | none => true
  | some cur =>
    if cur.voice != new_config.voice then true
    else if cur.style != new_config.style then true
    else if cur.mode != new_config.mode then true
    else if cur.language != new_config.language then true
    else if !(dictHas STYLES new_config.style) then
      if dictGet cur.custom_styles new_config.style != dictGet new_config.custom_styles new_config.style
      then true
      else false
    else false

/-- The composed cache-key string hashed by get_cache_path. -/
def cache_key (text : String) (c : Config) : String :=
  text ++ ":" ++ c.voice ++ ":" ++ c.style ++ ":" ++ c.mode ++ ":" ++ c.language

/-- get_cache_path from tts_daemon.py, with the md5 hex digest supplied as
a parameter (an arbitrary deterministic function of the composed key). -/
def get_cache_path (digest : String → String) (text : String) (c : Config) : String :=
  "tts_cache/" ++ digest (cache_key text c) ++ ".wav"

/-- save_audio from tts_daemon.py expressed as the sequence of filesystem
operations it performs: it opens the destination path itself for writing
and writes the PCM frames there. -/
inductive FileOp where
  | openWrite (path : String)
  | writeFrames (path : String) (pcm : List Nat)
  | renameFile (src : String) (dst : String)
deriving Repr, DecidableEq

def save_audio (pcm : List Nat) (path : String) : List FileOp :=
  [FileOp.openWrite path, FileOp.writeFrames path pcm]

/-- The daemon's mutable connection state: `session` and `session_cm`
(truth of `is not None`), `current_config` and `reconnect_delay`. -/
structure DaemonState where
  session : Bool
  session_cm : Bool
  current_config : Option Config
  reconnect_delay : Nat
deriving Repr, DecidableEq

-- Observable side effects of one request / one maintenance-loop iteration.
inductive Event where
  | sessionClose
  | sessionConnect (ok : Bool)
  | sendTurn (text : String)
  | sinkFeed (chunk : List Nat)
  | sinkFinish
  | sinkWaitDone
  | cacheWrite (path : String) (pcm : List Nat)
  | playDirect (pcm : List Nat)
  | playFile (path : String)
  | playCachedFile (path : String)
  | logError
  | logWarning
  | sleepFor (seconds : Nat)
deriving Repr, DecidableEq

/-- Environment oracle for one connect attempt: `success` is a completed
handshake; `failEarly` fails before any state is touched (missing key,
client construction error); `failEnter` fails inside the session open,
after `current_config` and `session_cm` were already assigned. -/
inductive ConnectOutcome where
  | success
  | failEarly
  | failEnter
deriving Repr, DecidableEq

/-- Environment oracle for one response stream: `complete` delivers these
inline-data chunks and then the turn_complete marker; `raised` delivers
some chunks and then throws a transport exception. -/
inductive StreamOutcome where
  | complete (chunks : List (List Nat))
  | raised (chunksBefore : List (List Nat))
deriving Repr, DecidableEq

def max_reconnect_delay : Nat := 30

/-- connect_live_api from tts_daemon.py: on success stores the config
snapshot, the session and its context manager, and resets the backoff
delay to 1; on failure it returns false (state per the failure point). -/
def connect_live_api (st : DaemonState) (cfg : Config) (co : ConnectOutcome) :
    DaemonState × Bool × List Event :=
  match co with
  | ConnectOutcome.success =>
    ({ st with session := true, session_cm := true,
               current_config := some cfg, reconnect_delay := 1 },
     true, [Event.sessionConnect true])
  | ConnectOutcome.failEarly =>
    (st, false, [Event.sessionConnect false])
  | ConnectOutcome.failEnter =>
    ({ st with session_cm := true, current_config := some cfg },
     false, [Event.sessionConnect false])

/-- The session close performed by shutdown (tts_daemon.py lines
625-631): when a context manager exists, exit it and clear `session` and
`session_cm`; `current_config` is not touched. -/
def shutdown_teardown (st : DaemonState) : DaemonState :=
  if st.session_cm then { st with session := false, session_cm := false } else st

/-- The config-drift prologue of synthesize_live: when config_changed and a
context manager exists, exit it and clear `session` and `session_cm`
(`current_config` is left untouched by the source). -/
def drift_teardown (st : DaemonState) (cfg : Config) : DaemonState × List Event :=
  if config_changed st.current_config cfg then
    if st.session_cm then
      ({ st with session := false, session_cm := false }, [Event.sessionClose])
    else (st, [])
  else (st, [])

def feedEvents (hasPlayer : Bool) (chunks : List (List Nat)) : List Event :=
  if hasPlayer then chunks.map Event.sinkFeed else []

/-- The try/except body of synthesize_live: send one turn, collect chunks
(feeding the player when one was passed), finish the player at
turn_complete; on a transport exception, log, close the session context
manager if present, and unconditionally clear `session` and `session_cm`. -/
def synthTurn (st : DaemonState) (text : String) (hasPlayer : Bool)
    (stream : StreamOutcome) (evAcc : List Event) :
    DaemonState × Option (List Nat) × List Event :=
  match stream with
  | StreamOutcome.complete chunks =>
    let evs := evAcc ++ [Event.sendTurn text] ++ feedEvents hasPlayer chunks
               ++ (if hasPlayer then [Event.sinkFinish] else [])
    if chunks.isEmpty then (st, none, evs ++ [Event.logWarning])
    else (st, some chunks.flatten, evs)
  | StreamOutcome.raised chunksBefore =>
    let evs := evAcc ++ [Event.sendTurn text] ++ feedEvents hasPlayer chunksBefore
               ++ [Event.logError]
               ++ (if st.session_cm then [Event.sessionClose] else [])
    ({ st with session := false, session_cm := false }, none, evs)

/-- synthesize_live from tts_daemon.py: drift teardown, lazy connect when
no session (returning none when that fails), then the single turn. -/
def synthesize_live (st : DaemonState) (text : String) (cfg : Config)
    (hasPlayer : Bool) (co : ConnectOutcome) (stream : StreamOutcome) :
    DaemonState × Option (List Nat) × List Event :=
  let d := drift_teardown st cfg
  if d.1.session then
    synthTurn d.1 text hasPlayer stream d.2
  else
    let c := connect_live_api d.1 cfg co
    if c.2.1 then synthTurn c.1 text hasPlayer stream (d.2 ++ c.2.2)
    else (c.1, none, d.2 ++ c.2.2)

/-- speak from tts_daemon.py: strip, truncate to max_chars code points,
compute the cache path; on a hit play the cached file; on a miss call
synthesize_live with NO player, then save to cache and play. The oracles
(`cacheHit`, `co`, `stream`) and the digest function stand for the
filesystem, the connection and the remote stream. -/
-- The text a request is served with: stripped, then truncated to
-- max_chars code points when longer (lines 449-461 of tts_daemon.py).
def effective_text (tts_config : Config) (rawText : String) : String :=
  let text0 := pyStrip rawText
  if text0.length > tts_config.max_chars then pyTake tts_config.max_chars text0 else text0

def speak (st : DaemonState) (digest : String → String) (rawText : String)
    (tts_config : Config) (cacheHit : Bool) (hasSounddevice : Bool)
    (co : ConnectOutcome) (stream : StreamOutcome) :
    DaemonState × List Event :=
  if pyStrip rawText = "" then (st, [])
  else
    let text := effective_text tts_config rawText
    let cache_path := get_cache_path digest text tts_config
    if cacheHit then
      (st, [if hasSounddevice then Event.playCachedFile cache_path else Event.playFile cache_path])
    else
      let r := synthesize_live st text tts_config false co stream
      match r.2.1 with
      | some pcm =>
        (r.1, r.2.2 ++ [Event.cacheWrite cache_path pcm]
              ++ [if hasSounddevice then Event.playDirect pcm else Event.playFile cache_path])
      | none => (r.1, r.2.2 ++ [Event.logError])

/-- One iteration of maintain_connection from tts_daemon.py: with a live
session just sleep 5 s; otherwise attempt a connect, resetting the backoff
delay on success and, on failure, sleeping the current delay and then
doubling it capped at max_reconnect_delay. -/
def maintain_step (st : DaemonState) (cfg : Config) (co : ConnectOutcome) :
    DaemonState × List Event :=
  if st.session then (st, [Event.sleepFor 5])
  else
    let c := connect_live_api st cfg co
    if c.2.1 then ({ c.1 with reconnect_delay := 1 }, c.2.2)
    else
      ({ c.1 with reconnect_delay := min (c.1.reconnect_delay * 2) max_reconnect_delay },
       c.2.2 ++ [Event.sleepFor c.1.reconnect_delay])

/-- A run of n consecutive failing connect attempts of the maintenance
loop, collecting the emitted events. -/
def run_fail_steps (cfg : Config) : Nat → DaemonState → DaemonState × List Event
  | 0, st => (st, [])
  | Nat.succ k, st =>
    let r := maintain_step st cfg ConnectOutcome.failEarly
    let rest := run_fail_steps cfg k r.1
    (rest.1, r.2 ++ rest.2)

-- Extract the seconds slept from an event, for reading off backoff delays.
def sleptSeconds : Event → Option Nat
  | Event.sleepFor s => some s
  | _ => none

/-- One element of a transcript record's `message.content` array in
speak_hook.py: a dict with `type == "text"` (its `text` field, defaulting
to ""), any other element skipped by the source, or a bare string. -/
inductive Block where
  | textBlock (text : String)
  | otherBlock
  | bare (s : String)
deriving Repr, DecidableEq

/-- One parsed JSONL transcript record, as read by speak_hook.py. -/
structure Entry where
  type : String
  content : List Block
deriving Repr, DecidableEq

def blockText : Block → Option String
  | Block.textBlock t => some t
  | Block.otherBlock => none
  | Block.bare s => some s

-- Python `" ".join(texts)`.
def joinSpace : List String → String
  | [] => ""
  | [s] => s
  | s :: t => s ++ " " ++ joinSpace t

/-- The scan of extract_last_assistant_message over the reversed record
list: the first assistant record with a nonempty gathered text list wins. -/
def extract_go : List Entry → String
  | [] => ""
  | e :: rest =>
    if e.type = "assistant" then
      let texts := e.content.filterMap blockText
      if texts.isEmpty then extract_go rest else joinSpace texts
    else extract_go rest

/-- extract_last_assistant_message from speak_hook.py. -/
def extract_last_assistant_message (entries : List Entry) : String :=
  extract_go entries.reverse

/-- Environment oracle for summarize_asmr's remote call: no API key; a key
with the summarizer answering `response`; or a key with the request
failing. -/
inductive SummarizeEnv where
  | noKey
  | keyOk (response : String)
  | keyErr
deriving Repr, DecidableEq

-- Python `text.split('.')[0]`: everything before the first '.'.
def firstSentenceOf (s : String) : String :=
  ⟨s.data.takeWhile (fun c => c ≠ '.')⟩

/-- summarize_asmr from speak_hook.py. Returns the text body actually sent
to the remote summarizer (none when no request is made) together with the
string the function returns: empty text gives ""; no API key gives the
first 200 code points; otherwise the input is truncated to 1000 code
points and sent, the stripped response is returned, and on a request
error the first '.'-sentence of the truncated input capped at 100 code
points (or "Done" when it is empty) is returned. -/
def summarize_asmr (env : SummarizeEnv) (text : String) : Option String × String :=
  if text = "" then (none, "")
  else
    match env with
    | SummarizeEnv.noKey => (none, pyTake 200 text)
    | SummarizeEnv.keyOk response => (some (pyTake 1000 text), pyStrip response)
    | SummarizeEnv.keyErr =>
      let t := pyTake 1000 text
      let first_sentence := firstSentenceOf t
      (some t, if first_sentence ≠ "" then pyTake 100 first_sentence else "Done")

/-- main from speak_hook.py, returning the string written to the daemon
socket: "Done" when the transcript is missing, "Ready" when no assistant
message is found, otherwise the summarize_asmr result. -/
def hook_main (env : SummarizeEnv) (transcript : Option (List Entry)) : String :=
  match transcript with
  | none => "Done"
  | some entries =>
    let last_message := extract_last_assistant_message entries
    if last_message = "" then "Ready"
    else (summarize_asmr env last_message).2

-- A daemon state holding a live session opened against default_config,
-- used as the concrete state of witnesses and counterexamples.
def st_probe : DaemonState :=
  { session := true, session_cm := true,
    current_config := some default_config, reconnect_delay := 1 }

-- General helper lemmas about strings and the join functions.

theorem string_append_cancel_right {a b c : String} (h : a ++ c = b ++ c) : a = b := by
  have hd := congrArg String.data h
  rw [String.data_append, String.data_append] at hd
  exact congrArg String.mk (List.append_cancel_right hd)

theorem string_append_cancel_left {a b c : String} (h : c ++ a = c ++ b) : a = b := by
  have hd := congrArg String.data h
  rw [String.data_append, String.data_append] at hd
  exact congrArg String.mk (List.append_cancel_left hd)

theorem joinDot_cons_of_ne_nil (s : String) (t : List String) (h : t ≠ []) :
    joinDot (s :: t) = s ++ ". " ++ joinDot t := by
  cases t with
  | nil => exact absurd rfl h
  | cons x xs => rfl

/-- Fragment lists that differ only in one position produce different
joins: the surrounding fragments cancel. -/
theorem joinDot_middle_ne (m l : List String) (a b : String) (hab : a ≠ b) :
    joinDot (m ++ a :: l) ≠ joinDot (m ++ b :: l) := by
  induction m with
  | nil =>
    cases l with
    | nil => simpa [joinDot] using hab
    | cons x xs =>
      intro h
      rw [List.nil_append, List.nil_append,
          joinDot_cons_of_ne_nil a (x :: xs) (by simp),
          joinDot_cons_of_ne_nil b (x :: xs) (by simp)] at h
      exact hab (string_append_cancel_right (string_append_cancel_right h))
  | cons m0 ms ih =>
    intro h
    rw [List.cons_append, List.cons_append,
        joinDot_cons_of_ne_nil m0 (ms ++ a :: l) (by simp),
        joinDot_cons_of_ne_nil m0 (ms ++ b :: l) (by simp)] at h
    exact ih (string_append_cancel_left h)

theorem append_dot_ne {a b : String} (h : a ≠ b) : a ++ "." ≠ b ++ "." :=
  fun hc => h (string_append_cancel_right hc)

/-- Claim C7: for every configuration, build_instruction is a pure
function returning the mode fragment, the resolved style fragment (a
built-in key resolving to its preset, otherwise a custom_styles key
resolving to its body, an unknown style contributing nothing), and the
language fragment, in that order, joined by ". " and terminated with ".". -/
theorem C7_build_instruction_matches_spec (c : Config) :
    build_instruction c = instructionOfSpec c := by
  unfold build_instruction instructionOfSpec modeFragment styleFragment langFragment
  cases hm : dictGet MODES c.mode <;>
    cases hs : dictGet STYLES c.style <;>
      cases hc : dictGet c.custom_styles c.style <;>
        cases hl : dictGet LANGUAGES c.language <;>
          simp [hm, hs, hc, hl]

/-- Claim C3 (amended): save_audio writes the WAV directly to the final
path — the frame write targets the destination path itself and no rename
of a temporary file ever occurs. -/
theorem C3_cache_write_is_direct (pcm : List Nat) (path : String) :
    FileOp.writeFrames path pcm ∈ save_audio pcm path
    ∧ (∀ src dst, FileOp.renameFile src dst ∉ save_audio pcm path)
    ∧ (∀ q, FileOp.openWrite q ∈ save_audio pcm path → q = path) := by
  refine ⟨by simp [save_audio], ?_, ?_⟩
  · intro src dst hmem
    simp [save_audio] at hmem
  · intro q hmem
    simp [save_audio] at hmem
    exact hmem

theorem C3_witness :
    FileOp.writeFrames "a.wav" [3, 1] ∈ save_audio [3, 1] "a.wav"
    ∧ (∀ src dst, FileOp.renameFile src dst ∉ save_audio [3, 1] "a.wav")
    ∧ (∀ q, FileOp.openWrite q ∈ save_audio [3, 1] "a.wav" → q = "a.wav") :=
  C3_cache_write_is_direct [3, 1] "a.wav"

/-- Claim C3 as stated is false: the cache write for this concrete PCM
and path performs no rename of any temporary file into place. -/
theorem C3_counterexample :
    ¬ ∃ tmp, FileOp.renameFile tmp "a.wav" ∈ save_audio [3, 1] "a.wav" := by
  rintro ⟨tmp, hmem⟩
  simp [save_audio] at hmem

/-- The condition of claim C5: the new effective configuration differs
from the recorded one in voice, style, mode, language, or in the resolved
style text. -/
def session_fields_differ (cur n : Config) : Prop :=
  cur.voice ≠ n.voice ∨ cur.style ≠ n.style ∨ cur.mode ≠ n.mode ∨
    cur.language ≠ n.language ∨ styleFragment cur ≠ styleFragment n

theorem config_changed_eq_differs (cur n : Config) :
    config_changed (some cur) n =
      (cur.voice != n.voice || cur.style != n.style || cur.mode != n.mode ||
        cur.language != n.language || (styleFragment cur != styleFragment n)) := by
  by_cases hv : cur.voice = n.voice <;>
    by_cases hs : cur.style = n.style <;>
      by_cases hm : cur.mode = n.mode <;>
        by_cases hl : cur.language = n.language <;>
          cases hst : dictGet STYLES n.style <;>
            simp [config_changed, styleFragment, dictHas, hv, hs, hm, hl, hst, bne_iff_ne] <;>
              rcases eq_or_ne (dictGet cur.custom_styles n.style) (dictGet n.custom_styles n.style)
                with hcu | hcu <;>
                simp [hcu]

/-- Claim C5: config_changed reports a change exactly when the new
configuration differs from the recorded one in voice, style, mode,
language or in the resolved style text; such a change tears down the
current session before synthesis, and any other change (e.g. max_chars)
does not. -/
theorem C5_config_drift_detection (cur n : Config) (st : DaemonState)
    (hcfg : st.current_config = some cur) (hcm : st.session_cm = true) :
    (config_changed (some cur) n = true ↔ session_fields_differ cur n)
    ∧ (config_changed (some cur) n = true →
        drift_teardown st n =
          ({ st with session := false, session_cm := false }, [Event.sessionClose]))
    ∧ (config_changed (some cur) n = false → drift_teardown st n = (st, [])) := by
  refine ⟨?_, ?_, ?_⟩
  · rw [config_changed_eq_differs]
    simp only [Bool.or_eq_true, bne_iff_ne, ne_eq, session_fields_differ]
    tauto
  · intro h
    simp [drift_teardown, hcfg, h, hcm]
  · intro h
    simp [drift_teardown, hcfg, h]

-- A configuration differing from the default only in max_chars.
def cfg_other_field : Config :=
  { default_config with max_chars := 500 }

theorem C5_witness :
    st_probe.current_config = some default_config ∧ st_probe.session_cm = true
    ∧ ((config_changed (some default_config) cfg_other_field = true ↔
          session_fields_differ default_config cfg_other_field)
        ∧ (config_changed (some default_config) cfg_other_field = true →
            drift_teardown st_probe cfg_other_field =
              ({ st_probe with session := false, session_cm := false }, [Event.sessionClose]))
        ∧ (config_changed (some default_config) cfg_other_field = false →
            drift_teardown st_probe cfg_other_field = (st_probe, [])))
    ∧ config_changed (some default_config) cfg_other_field = false :=
  ⟨rfl, rfl, C5_config_drift_detection default_config cfg_other_field st_probe rfl rfl, by decide⟩

/-- A configuration whose style resolves through custom_styles produces
the instruction with its body as the middle fragment. -/
theorem build_instruction_custom (c : Config) (b : String)
    (h1 : dictGet STYLES c.style = none)
    (h2 : dictGet c.custom_styles c.style = some b) :
    build_instruction c =
      joinDot ((dictGet MODES c.mode).toList ++ b :: (dictGet LANGUAGES c.language).toList)
        ++ "." := by
  unfold build_instruction
  rw [h1, h2]
  cases dictGet MODES c.mode <;> cases dictGet LANGUAGES c.language <;> simp

/-- Claim C10 (amended): configurations agreeing on voice, style, mode
and language always map to the same cache path, no matter their
custom_styles; when additionally the shared style is not a built-in
preset and the two custom resolutions differ, config_changed reports
drift, and when both configurations resolve the style to a body those
bodies yield different instruction strings. -/
theorem C10_cache_key_ignores_custom_styles (digest : String → String) (text : String)
    (c1 c2 : Config) (hv : c1.voice = c2.voice) (hs : c1.style = c2.style)
    (hm : c1.mode = c2.mode) (hl : c1.language = c2.language) :
    get_cache_path digest text c1 = get_cache_path digest text c2
    ∧ (dictHas STYLES c2.style = false →
        dictGet c1.custom_styles c2.style ≠ dictGet c2.custom_styles c2.style →
        config_changed (some c1) c2 = true)
    ∧ (∀ b1 b2, dictGet STYLES c2.style = none →
        dictGet c1.custom_styles c1.style = some b1 →
        dictGet c2.custom_styles c2.style = some b2 → b1 ≠ b2 →
        build_instruction c1 ≠ build_instruction c2) := by
  refine ⟨?_, ?_, ?_⟩
  · unfold get_cache_path cache_key
    rw [hv, hs, hm, hl]
  · intro hbuiltin hcu
    simp [config_changed, hv, hs, hm, hl, hbuiltin, bne_iff_ne, hcu]
  · intro b1 b2 hnone hb1 hb2 hne
    rw [build_instruction_custom c1 b1 (by rw [hs]; exact hnone) hb1,
        build_instruction_custom c2 b2 hnone hb2, hm, hl]
    exact append_dot_ne (joinDot_middle_ne _ _ b1 b2 hne)

-- Two configurations for C10: same custom style key with different bodies.
def cfg_custom_a : Config :=
  { default_config with
      style := "whisper"
      custom_styles := [("whisper", "Speak in a hushed whisper")] }

def cfg_custom_b : Config :=
  { default_config with
      style := "whisper"
      custom_styles := [("whisper", "Speak at a brisk pace")] }

theorem C10_witness :
    cfg_custom_a.voice = cfg_custom_b.voice ∧ cfg_custom_a.style = cfg_custom_b.style
    ∧ cfg_custom_a.mode = cfg_custom_b.mode ∧ cfg_custom_a.language = cfg_custom_b.language
    ∧ (get_cache_path (fun s => s) "hi" cfg_custom_a = get_cache_path (fun s => s) "hi" cfg_custom_b
        ∧ (dictHas STYLES cfg_custom_b.style = false →
            dictGet cfg_custom_a.custom_styles cfg_custom_b.style ≠
              dictGet cfg_custom_b.custom_styles cfg_custom_b.style →
            config_changed (some cfg_custom_a) cfg_custom_b = true)
        ∧ (∀ b1 b2, dictGet STYLES cfg_custom_b.style = none →
            dictGet cfg_custom_a.custom_styles cfg_custom_a.style = some b1 →
            dictGet cfg_custom_b.custom_styles cfg_custom_b.style = some b2 → b1 ≠ b2 →
            build_instruction cfg_custom_a ≠ build_instruction cfg_custom_b))
    ∧ dictHas STYLES cfg_custom_b.style = false
    ∧ dictGet cfg_custom_a.custom_styles cfg_custom_a.style = some "Speak in a hushed whisper"
    ∧ dictGet cfg_custom_b.custom_styles cfg_custom_b.style = some "Speak at a brisk pace" :=
  ⟨rfl, rfl, rfl, rfl,
   C10_cache_key_ignores_custom_styles (fun s => s) "hi" cfg_custom_a cfg_custom_b rfl rfl rfl rfl,
   by decide, by decide, by decide⟩

-- Two configurations for the C10 counterexample: they agree on the four
-- session fields (style is the built-in "asmr") and differ only in
-- custom_styles, yet the daemon does NOT treat them as config drift.
def cfg_builtin_a : Config := default_config

def cfg_builtin_b : Config :=
  { default_config with custom_styles := [("x", "y")] }

/-- Claim C10 as stated is false: these two configurations agree on
voice, style, mode and language and differ in custom_styles, and they do
share a cache path, but they are NOT treated as config drift (the session
is kept) and their instruction strings are identical. -/
theorem C10_counterexample :
    cfg_builtin_a.custom_styles ≠ cfg_builtin_b.custom_styles
    ∧ get_cache_path (fun s => s) "hi" cfg_builtin_a = get_cache_path (fun s => s) "hi" cfg_builtin_b
    ∧ config_changed (some cfg_builtin_a) cfg_builtin_b = false
    ∧ build_instruction cfg_builtin_a = build_instruction cfg_builtin_b := by
  refine ⟨by decide, rfl, by decide, rfl⟩

/-- The delay slept on the k-th consecutive failure, starting from a
reset delay, is 2 to the k capped at 30. -/
theorem run_fail_delays (cfg : Config) :
    ∀ (n j : Nat) (st : DaemonState), st.session = false →
      st.reconnect_delay = min (2 ^ j) 30 →
      (run_fail_steps cfg n st).2.filterMap sleptSeconds =
        (List.range n).map (fun k => min (2 ^ (j + k)) 30) := by
  intro n
  induction n with
  | zero => intro j st h1 h2; simp [run_fail_steps]
  | succ m ih =>
    intro j st h1 h2
    have hp : (2 : Nat) ^ (j + 1) = 2 ^ j * 2 := pow_succ 2 j
    have harith : min (min ((2 : Nat) ^ j) 30 * 2) 30 = min (2 ^ (j + 1)) 30 := by
      rcases le_total ((2 : Nat) ^ j) 30 with h | h <;> omega
    have hrec := ih (j + 1)
      ({ st with reconnect_delay := min (st.reconnect_delay * 2) max_reconnect_delay })
      (by simpa using h1)
      (by simp [h2, max_reconnect_delay, harith])
    rw [run_fail_steps]
    simp only [maintain_step, connect_live_api, h1]
    simp only [Bool.false_eq_true, if_false, List.filterMap_append]
    simp only [h1] at hrec
    rw [hrec]
    simp only [sleptSeconds, List.filterMap_cons, List.filterMap_nil]
    rw [List.range_succ_eq_map, List.map_cons, List.map_map, h2]
    refine congrArg₂ List.cons (by simp) ?_
    refine List.map_congr_left ?_
    intro a ha
    simp only [Function.comp_apply]
    have heq : j + 1 + a = j + a.succ := by omega
    rw [heq]

/-- Claim C6: consecutive failed connect attempts sleep 1, 2, 4, 8, 16,
30, 30, ... seconds (doubling, capped at 30), and a successful connect
resets the delay to 1 second, both in connect_live_api itself and in the
maintenance loop. -/
theorem C6_backoff_schedule (cfg : Config) (n : Nat) (st st2 : DaemonState)
    (h1 : st.session = false) (h2 : st.reconnect_delay = 1)
    (h3 : st2.session = false) :
    (run_fail_steps cfg n st).2.filterMap sleptSeconds =
      (List.range n).map (fun k => min (2 ^ k) 30)
    ∧ (connect_live_api st2 cfg ConnectOutcome.success).1.reconnect_delay = 1
    ∧ (maintain_step st2 cfg ConnectOutcome.success).1.reconnect_delay = 1 := by
  refine ⟨?_, rfl, ?_⟩
  · have := run_fail_delays cfg n 0 st h1 (by simpa using h2)
    simpa using this
  · simp [maintain_step, connect_live_api, h3]

-- A disconnected daemon state with the delay freshly reset.
def st_down : DaemonState :=
  { session := false, session_cm := false, current_config := none, reconnect_delay := 1 }

theorem C6_witness :
    st_down.session = false ∧ st_down.reconnect_delay = 1
    ∧ ((run_fail_steps default_config 7 st_down).2.filterMap sleptSeconds =
        (List.range 7).map (fun k => min (2 ^ k) 30)
      ∧ (connect_live_api st_down default_config ConnectOutcome.success).1.reconnect_delay = 1
      ∧ (maintain_step st_down default_config ConnectOutcome.success).1.reconnect_delay = 1)
    ∧ (run_fail_steps default_config 7 st_down).2.filterMap sleptSeconds =
        [1, 2, 4, 8, 16, 30, 30] :=
  ⟨rfl, rfl, C6_backoff_schedule default_config 7 st_down st_down rfl rfl rfl, by decide⟩

/-- On a cache miss with a live matching session and a completed stream,
speak produces exactly: one turn sent (with no sink attached), the cache
write of the concatenated chunks, then playback. -/
theorem speak_miss_success_trace (st : DaemonState) (digest : String → String)
    (raw : String) (cfg : Config) (co : ConnectOutcome) (chunks : List (List Nat))
    (hasSD : Bool) (hs : st.session = true)
    (hd : config_changed st.current_config cfg = false)
    (ht : pyStrip raw ≠ "") (hc : chunks ≠ []) :
    speak st digest raw cfg false hasSD co (StreamOutcome.complete chunks) =
      (st, [Event.sendTurn (effective_text cfg raw),
            Event.cacheWrite (get_cache_path digest (effective_text cfg raw) cfg) chunks.flatten,
            if hasSD then Event.playDirect chunks.flatten
            else Event.playFile (get_cache_path digest (effective_text cfg raw) cfg)]) := by
  simp [speak, ht, synthesize_live, drift_teardown, hd, hs, synthTurn, feedEvents, hc]

/-- On a transport exception mid-stream (live matching session), speak
produces exactly: one turn sent, the error log, the session close, and
the final failure log — no cache write, no reconnect, no second turn —
and the resulting state has the session cleared with current_config kept. -/
theorem speak_raised_trace (st : DaemonState) (digest : String → String)
    (raw : String) (cfg : Config) (co : ConnectOutcome) (chunks : List (List Nat))
    (hasSD : Bool) (hs : st.session = true) (hcm : st.session_cm = true)
    (hd : config_changed st.current_config cfg = false)
    (ht : pyStrip raw ≠ "") :
    speak st digest raw cfg false hasSD co (StreamOutcome.raised chunks) =
      ({ st with session := false, session_cm := false },
       [Event.sendTurn (effective_text cfg raw), Event.logError,
        Event.sessionClose, Event.logError]) := by
  simp [speak, ht, synthesize_live, drift_teardown, hd, hs, hcm, synthTurn, feedEvents]

/-- Claim C1 (amended): on a cache miss the Dispatcher invokes the
Synthesizer WITHOUT an Audio Sink — no chunk is fed to a sink and
finish/wait_done are never called — and after a successful synthesis it
first writes the concatenated PCM to the cache and only then plays it. -/
theorem C1_cache_miss_without_sink (st : DaemonState) (digest : String → String)
    (raw : String) (cfg : Config) (co : ConnectOutcome) (chunks : List (List Nat))
    (hasSD : Bool) (hs : st.session = true)
    (hd : config_changed st.current_config cfg = false)
    (ht : pyStrip raw ≠ "") (hc : chunks ≠ []) :
    speak st digest raw cfg false hasSD co (StreamOutcome.complete chunks) =
      (st, [Event.sendTurn (effective_text cfg raw),
            Event.cacheWrite (get_cache_path digest (effective_text cfg raw) cfg) chunks.flatten,
            if hasSD then Event.playDirect chunks.flatten
            else Event.playFile (get_cache_path digest (effective_text cfg raw) cfg)]) :=
  speak_miss_success_trace st digest raw cfg co chunks hasSD hs hd ht hc

theorem C1_witness :
    st_probe.session = true
    ∧ config_changed st_probe.current_config default_config = false
    ∧ pyStrip "hello" ≠ "" ∧ ([[7], [8]] : List (List Nat)) ≠ []
    ∧ speak st_probe (fun s => s) "hello" default_config false true ConnectOutcome.success
        (StreamOutcome.complete [[7], [8]]) =
      (st_probe, [Event.sendTurn (effective_text default_config "hello"),
        Event.cacheWrite
          (get_cache_path (fun s => s) (effective_text default_config "hello") default_config)
          ([[7], [8]] : List (List Nat)).flatten,
        if true then Event.playDirect ([[7], [8]] : List (List Nat)).flatten
        else Event.playFile
          (get_cache_path (fun s => s) (effective_text default_config "hello") default_config)]) :=
  ⟨rfl, by decide, by decide, by decide,
   C1_cache_miss_without_sink st_probe (fun s => s) "hello" default_config
     ConnectOutcome.success [[7], [8]] true rfl (by decide) (by decide) (by decide)⟩

/-- Claim C1 as stated is false: on this concrete cache miss no audio
chunk is ever fed to an Audio Sink, finish and wait_done are never
called, and yet the cache is written. -/
theorem C1_counterexample :
    Event.sinkFeed [7] ∉
      (speak st_probe (fun s => s) "hello" default_config false true ConnectOutcome.success
        (StreamOutcome.complete [[7]])).2
    ∧ Event.sinkFinish ∉
      (speak st_probe (fun s => s) "hello" default_config false true ConnectOutcome.success
        (StreamOutcome.complete [[7]])).2
    ∧ Event.sinkWaitDone ∉
      (speak st_probe (fun s => s) "hello" default_config false true ConnectOutcome.success
        (StreamOutcome.complete [[7]])).2
    ∧ Event.cacheWrite
        (get_cache_path (fun s => s) (effective_text default_config "hello") default_config) [7] ∈
      (speak st_probe (fun s => s) "hello" default_config false true ConnectOutcome.success
        (StreamOutcome.complete [[7]])).2 := by
  refine ⟨by decide, by decide, by decide, by decide⟩

/-- Claim C2 (amended): a mid-stream teardown clears `session` and
`session_cm` but leaves `current_config` untouched, so after it the
session is absent while the recorded active configuration persists. -/
theorem C2_teardown_keeps_current_config (st : DaemonState) (text : String)
    (cfg : Config) (p : Bool) (co : ConnectOutcome) (chunks : List (List Nat))
    (hs : st.session = true)
    (hd : config_changed st.current_config cfg = false) :
    (synthesize_live st text cfg p co (StreamOutcome.raised chunks)).1.session = false
    ∧ (synthesize_live st text cfg p co (StreamOutcome.raised chunks)).1.session_cm = false
    ∧ (synthesize_live st text cfg p co (StreamOutcome.raised chunks)).1.current_config
        = st.current_config
    ∧ (∀ (st2 : DaemonState) (cfg2 : Config),
        (drift_teardown st2 cfg2).1.current_config = st2.current_config)
    ∧ (∀ st2 : DaemonState, (shutdown_teardown st2).current_config = st2.current_config) := by
  refine ⟨?_, ?_, ?_, ?_, ?_⟩
  · simp [synthesize_live, drift_teardown, hd, hs, synthTurn]
  · simp [synthesize_live, drift_teardown, hd, hs, synthTurn]
  · simp [synthesize_live, drift_teardown, hd, hs, synthTurn]
  · intro st2 cfg2
    unfold drift_teardown
    split <;> [skip; rfl]
    split <;> rfl
  · intro st2
    unfold shutdown_teardown
    split <;> rfl

theorem C2_witness :
    st_probe.session = true
    ∧ config_changed st_probe.current_config default_config = false
    ∧ ((synthesize_live st_probe "hi" default_config false ConnectOutcome.success
          (StreamOutcome.raised [])).1.session = false
      ∧ (synthesize_live st_probe "hi" default_config false ConnectOutcome.success
          (StreamOutcome.raised [])).1.session_cm = false
      ∧ (synthesize_live st_probe "hi" default_config false ConnectOutcome.success
          (StreamOutcome.raised [])).1.current_config = st_probe.current_config
      ∧ (∀ (st2 : DaemonState) (cfg2 : Config),
          (drift_teardown st2 cfg2).1.current_config = st2.current_config)
      ∧ (∀ st2 : DaemonState, (shutdown_teardown st2).current_config = st2.current_config)) :=
  ⟨rfl, by decide,
   C2_teardown_keeps_current_config st_probe "hi" default_config false
     ConnectOutcome.success [] rfl (by decide)⟩

/-- Claim C2 as stated is false: after this concrete mid-stream error
teardown the session is absent but the recorded active configuration is
still present. -/
theorem C2_counterexample :
    (synthesize_live st_probe "hi" default_config false ConnectOutcome.success
      (StreamOutcome.raised [])).1.session = false
    ∧ (synthesize_live st_probe "hi" default_config false ConnectOutcome.success
      (StreamOutcome.raised [])).1.current_config ≠ none := by
  refine ⟨by decide, by decide⟩

/-- Claim C8 (amended): a transport exception while sending the turn or
consuming the stream makes the Synthesizer return absent with the session
closed; the request writes no cache entry, sends no second turn and
attempts no reconnect — reconnection happens on a later request or
through the periodic connection-maintenance loop. -/
theorem C8_transport_error_aborts_request (st : DaemonState) (digest : String → String)
    (raw : String) (cfg : Config) (co : ConnectOutcome) (chunks : List (List Nat))
    (hasSD : Bool) (hs : st.session = true) (hcm : st.session_cm = true)
    (hd : config_changed st.current_config cfg = false)
    (ht : pyStrip raw ≠ "") :
    (synthesize_live st (effective_text cfg raw) cfg false co
        (StreamOutcome.raised chunks)).2.1 = none
    ∧ speak st digest raw cfg false hasSD co (StreamOutcome.raised chunks) =
        ({ st with session := false, session_cm := false },
         [Event.sendTurn (effective_text cfg raw), Event.logError,
          Event.sessionClose, Event.logError]) := by
  refine ⟨?_, speak_raised_trace st digest raw cfg co chunks hasSD hs hcm hd ht⟩
  simp [synthesize_live, drift_teardown, hd, hs, synthTurn]

theorem C8_witness :
    st_probe.session = true ∧ st_probe.session_cm = true
    ∧ config_changed st_probe.current_config default_config = false
    ∧ pyStrip "hi" ≠ ""
    ∧ ((synthesize_live st_probe (effective_text default_config "hi") default_config false
          ConnectOutcome.success (StreamOutcome.raised [[9]])).2.1 = none
      ∧ speak st_probe (fun s => s) "hi" default_config false false ConnectOutcome.success
          (StreamOutcome.raised [[9]]) =
        ({ st_probe with session := false, session_cm := false },
         [Event.sendTurn (effective_text default_config "hi"), Event.logError,
          Event.sessionClose, Event.logError])) :=
  ⟨rfl, rfl, by decide, by decide,
   C8_transport_error_aborts_request st_probe (fun s => s) "hi" default_config
     ConnectOutcome.success [[9]] false rfl rfl (by decide) (by decide)⟩

-- A disconnected state as left behind by an error teardown, with the
-- previously recorded configuration still present.
def st_idle : DaemonState :=
  { session := false, session_cm := false,
    current_config := some default_config, reconnect_delay := 1 }

/-- Claim C8 as stated is false on its last clause: with no request in
flight, one iteration of the connection-maintenance loop on this
disconnected state already performs the reconnect by itself. -/
theorem C8_counterexample :
    st_idle.session = false
    ∧ (maintain_step st_idle default_config ConnectOutcome.success).2 =
        [Event.sessionConnect true]
    ∧ (maintain_step st_idle default_config ConnectOutcome.success).1.session = true := by
  refine ⟨rfl, by decide, by decide⟩

/-- Claim C9: a trimmed request longer than max_chars is truncated to
exactly max_chars code points, and that truncated text is what the cache
key is computed from (on both the hit and the miss path) and what is sent
for synthesis. -/
theorem C9_truncation_before_key_and_synthesis (st : DaemonState)
    (digest : String → String) (raw : String) (cfg : Config) (co : ConnectOutcome)
    (chunks : List (List Nat)) (hasSD : Bool)
    (hs : st.session = true) (hd : config_changed st.current_config cfg = false)
    (hc : chunks ≠ []) (hlen : (pyStrip raw).length > cfg.max_chars) :
    (effective_text cfg raw).length = cfg.max_chars
    ∧ effective_text cfg raw = pyTake cfg.max_chars (pyStrip raw)
    ∧ Event.sendTurn (effective_text cfg raw) ∈
        (speak st digest raw cfg false hasSD co (StreamOutcome.complete chunks)).2
    ∧ Event.cacheWrite (get_cache_path digest (effective_text cfg raw) cfg) chunks.flatten ∈
        (speak st digest raw cfg false hasSD co (StreamOutcome.complete chunks)).2
    ∧ (speak st digest raw cfg true hasSD co (StreamOutcome.complete chunks)).2 =
        [if hasSD then Event.playCachedFile (get_cache_path digest (effective_text cfg raw) cfg)
         else Event.playFile (get_cache_path digest (effective_text cfg raw) cfg)] := by
  have ht : pyStrip raw ≠ "" := by
    intro h
    rw [h] at hlen
    simp [String.length] at hlen
  have hlen2 : (pyStrip raw).data.length > cfg.max_chars := hlen
  refine ⟨?_, ?_, ?_, ?_, ?_⟩
  · have hx : effective_text cfg raw = pyTake cfg.max_chars (pyStrip raw) := by
      simp [effective_text, hlen]
    rw [hx]
    show ((pyStrip raw).data.take cfg.max_chars).length = cfg.max_chars
    rw [List.length_take]
    omega
  · simp [effective_text, hlen]
  · rw [speak_miss_success_trace st digest raw cfg co chunks hasSD hs hd ht hc]
    simp
  · rw [speak_miss_success_trace st digest raw cfg co chunks hasSD hs hd ht hc]
    simp
  · simp [speak, ht]

-- A configuration with a small max_chars for the C9 witness.
def cfg_small : Config :=
  { default_config with max_chars := 3 }

theorem C9_witness :
    st_probe.session = true
    ∧ config_changed st_probe.current_config cfg_small = false
    ∧ ([[1]] : List (List Nat)) ≠ []
    ∧ (pyStrip "abcde").length > cfg_small.max_chars
    ∧ ((effective_text cfg_small "abcde").length = cfg_small.max_chars
      ∧ effective_text cfg_small "abcde" = pyTake cfg_small.max_chars (pyStrip "abcde")
      ∧ Event.sendTurn (effective_text cfg_small "abcde") ∈
          (speak st_probe (fun s => s) "abcde" cfg_small false true ConnectOutcome.success
            (StreamOutcome.complete [[1]])).2
      ∧ Event.cacheWrite
          (get_cache_path (fun s => s) (effective_text cfg_small "abcde") cfg_small)
          ([[1]] : List (List Nat)).flatten ∈
          (speak st_probe (fun s => s) "abcde" cfg_small false true ConnectOutcome.success
            (StreamOutcome.complete [[1]])).2
      ∧ (speak st_probe (fun s => s) "abcde" cfg_small true true ConnectOutcome.success
            (StreamOutcome.complete [[1]])).2 =
          [if true then
            Event.playCachedFile
              (get_cache_path (fun s => s) (effective_text cfg_small "abcde") cfg_small)
           else
            Event.playFile
              (get_cache_path (fun s => s) (effective_text cfg_small "abcde") cfg_small)]) :=
  ⟨rfl, by decide, by decide, by decide,
   C9_truncation_before_key_and_synthesis st_probe (fun s => s) "abcde" cfg_small
     ConnectOutcome.success [[1]] true rfl (by decide) (by decide) (by decide)⟩

/-- Claim C4 (amended): the hook joins the assistant record's text
elements with single spaces, then summarizes rather than forwarding:
without an API key it writes the join truncated to 200 code points; with
a key it sends the join truncated to 1000 code points to the remote
summarizer and writes the stripped response; if that request fails it
writes the first '.'-sentence of the truncated join capped at 100 code
points (or "Done"). -/
theorem C4_hook_summarizes_not_forwards (env : SummarizeEnv) (entries : List Entry)
    (h : extract_last_assistant_message entries ≠ "") :
    hook_main env (some entries) =
      (summarize_asmr env (extract_last_assistant_message entries)).2
    ∧ (summarize_asmr SummarizeEnv.noKey (extract_last_assistant_message entries)).2
        = pyTake 200 (extract_last_assistant_message entries)
    ∧ (∀ r, summarize_asmr (SummarizeEnv.keyOk r) (extract_last_assistant_message entries)
        = (some (pyTake 1000 (extract_last_assistant_message entries)), pyStrip r))
    ∧ (summarize_asmr SummarizeEnv.keyErr (extract_last_assistant_message entries)).1
        = some (pyTake 1000 (extract_last_assistant_message entries)) := by
  refine ⟨by simp [hook_main, h], by simp [summarize_asmr, h],
    fun r => by simp [summarize_asmr, h], by simp [summarize_asmr, h]⟩

-- A transcript entry with both a text block and a bare string.
def short_entry : Entry :=
  { type := "assistant", content := [Block.textBlock "Fixed the bug", Block.bare "done"] }

theorem C4_witness :
    extract_last_assistant_message [short_entry] ≠ ""
    ∧ (hook_main SummarizeEnv.noKey (some [short_entry]) =
        (summarize_asmr SummarizeEnv.noKey (extract_last_assistant_message [short_entry])).2
      ∧ (summarize_asmr SummarizeEnv.noKey (extract_last_assistant_message [short_entry])).2
          = pyTake 200 (extract_last_assistant_message [short_entry])
      ∧ (∀ r, summarize_asmr (SummarizeEnv.keyOk r)
            (extract_last_assistant_message [short_entry])
          = (some (pyTake 1000 (extract_last_assistant_message [short_entry])), pyStrip r))
      ∧ (summarize_asmr SummarizeEnv.keyErr (extract_last_assistant_message [short_entry])).1
          = some (pyTake 1000 (extract_last_assistant_message [short_entry])))
    ∧ extract_last_assistant_message [short_entry] = "Fixed the bug done" :=
  ⟨by decide, C4_hook_summarizes_not_forwards SummarizeEnv.noKey [short_entry] (by decide),
   by decide⟩

-- A 300-code-point assistant message: long enough that the no-API-key
-- truncation to 200 is visible.
def longA : String := ⟨List.replicate 300 'a'⟩

def long_entry : Entry :=
  { type := "assistant", content := [Block.textBlock longA] }

/-- Claim C4 as stated is false: on this transcript the hook does not
write the joined text truncated to 1000 code points to the socket (here,
with no API key, it writes only the first 200 code points). -/
theorem C4_counterexample :
    extract_last_assistant_message [long_entry] = longA
    ∧ hook_main SummarizeEnv.noKey (some [long_entry]) ≠ pyTake 1000 longA := by
  refine ⟨by decide, by decide⟩

end TTS
